import Mathlib

/-!
Verification of the Balrog chat relay (balrog.py): the safety-gated turn
pipeline, its two backend clients, and the session-bounded conversation store.

The remote OpenAI-compatible backends are modelled as oracles: functions from
the request payload to either a raised network or protocol error (the error
branch of Except, carrying the error text) or a parsed response object.
Python string operations are embedded as executable functions on character
lists. The Flask session is cookie backed: a request persists its session
dictionary only when the session was marked modified, which happens exactly
on a dictionary item assignment, not on an in-place mutation of a stored
list; the embedding of the chat handler tracks this flag explicitly.
-/

namespace Balrog

/-- Embedding of the Python str.strip method: drop leading and trailing
whitespace characters. -/
def pyStrip (s : String) : String :=
  String.mk (((s.data.dropWhile Char.isWhitespace).reverse.dropWhile
    Char.isWhitespace).reverse)

/-- Embedding of the Python str.lower method for the ASCII range, which covers
the fixed keyword set of the safety model. -/
def pyLower (s : String) : String :=
  String.mk (s.data.map Char.toLower)

/-- Occurrence of pat as a contiguous substring of the first list. -/
def hasInfix : List Char → List Char → Bool
  | [], pat => pat.isEmpty
  | c :: rest, pat => pat.isPrefixOf (c :: rest) || hasInfix rest pat

/-- Embedding of the Python membership test pat in s on strings. -/
def pyIn (pat s : String) : Bool := hasInfix s.data pat.data

/-- The message object inside one choice of an OpenAI chat completions
response: response.choices[i].message. The content field is optional because
the API may return null content. -/
structure ChoiceMessage where
  content : Option String
  role : String
deriving DecidableEq

/-- One element of the choices array of a chat completions response. -/
structure Choice where
  message : ChoiceMessage
deriving DecidableEq

/-- The part of an OpenAI chat completions response that the program reads. -/
structure ModelResponse where
  choices : List Choice
deriving DecidableEq

/-- A conversation message dictionary as stored in the Flask session:
a role tag and the message text. -/
structure Message where
  role : String
  content : String
deriving DecidableEq

/-- The fixed keyword set scanned for in the classifier answer. -/
def unsafeKeywords : List String :=
  ["unsafe", "violation", "harmful", "inappropriate"]

/-- The classification prompt built by SafetyModel.check_content. -/
def classifierPrompt (content content_type : String) : String :=
  "[INST] Task: Check if this " ++ content_type ++ " is safe\n\n"
    ++ content ++ "[/INST]"

/-- Embeds SafetyModel.check_content. The backend oracle receives the exact
request prompt. Every exception inside the try block falls into the fail-open
branch: a raised network or protocol error, an IndexError on an empty choices
array, and an AttributeError from calling strip on a null content field. -/
def check_content (content : String) (content_type : String)
    (backend : String → Except String ModelResponse) : Bool × String :=
  match backend (classifierPrompt content content_type) with
  | .error _ => (true, "Safety check failed")
  | .ok response =>
    match response.choices with
    | [] => (true, "Safety check failed")
    | choice :: _ =>
      match choice.message.content with
      | none => (true, "Safety check failed")
      | some text =>
        let classification := pyStrip text
        if unsafeKeywords.any
            (fun keyword => pyIn keyword (pyLower classification)) then
          (false, classification)
        else
          (true, "Safe")

/-- Embeds LLMClient.chat_completion: on success the first choice content and
role, on any exception inside the try block an error value carrying the error
text. An empty choices array raises an IndexError inside the try block, which
the except clause also turns into an error result. -/
def chat_completion (messages : List Message)
    (backend : List Message → Except String ModelResponse) :
    Except String (Option String × String) :=
  match backend messages with
  | .error e => .error e
  | .ok response =>
    match response.choices with
    | [] => .error "list index out of range"
    | choice :: _ => .ok (choice.message.content, choice.message.role)

/-- The possible responses of the /api/chat handler. The success timestamp is
wall-clock output and is not part of the model. -/
inductive ChatResponse where
  | success (message : String)
  | emptyMessage
  | inputFiltered (classification : String)
  | outputFiltered (classification : String)
  | completionError (error : String)
  | emptyCompletion
deriving DecidableEq

/-- HTTP status code attached to each chat handler response. -/
def ChatResponse.status : ChatResponse → Nat
  | .success _ => 200
  | .emptyMessage => 400
  | .inputFiltered _ => 400
  | .outputFiltered _ => 400
  | .completionError _ => 500
  | .emptyCompletion => 500

/-- JSON body of each chat handler response, as an ordered key-value list.
The timestamp field of the success body is omitted from the model. -/
def ChatResponse.body : ChatResponse → List (String × String)
  | .success m => [("message", m)]
  | .emptyMessage => [("error", "Empty message")]
  | .inputFiltered c =>
      [("error", "Content filtered by safety model"), ("classification", c),
       ("type", "input_filtered")]
  | .outputFiltered c =>
      [("error", "Response filtered by safety model"), ("classification", c),
       ("type", "output_filtered")]
  | .completionError e => [("error", e)]
  | .emptyCompletion => [("error", "Empty response from model")]

/-- One external backend call made during a turn, recorded in order. -/
inductive Event where
  | classifierCall (prompt : String)
  | completionCall (messages : List Message)
deriving DecidableEq

/-- Recognizes a completion backend call event. -/
def isCompletionCall : Event → Bool
  | .completionCall _ => true
  | .classifierCall _ => false

/-- Recognizes a classifier backend call event. -/
def isClassifierCall : Event → Bool
  | .classifierCall _ => true
  | .completionCall _ => false

/-- The last n elements of a list, as the Python slice l[-n:]. -/
def lastN {α : Type} (n : Nat) (l : List α) : List α :=
  l.drop (l.length - n)

/-- Reading the conversation of a session: created empty on first access. -/
def readConversation (sess : Option (List Message)) : List Message :=
  sess.getD []

/-- Embeds the /api/chat handler. The first argument is the session
conversation as deserialized from the request cookie, with none meaning the
key is absent. The result is the response, the conversation as persisted by
the response cookie, and the ordered list of external calls made. The
persisted conversation reflects Flask cookie-session semantics: the handler
appends the user message in place to the stored list, so on an intermediate
failure the appended message is persisted exactly when the session was marked
modified, that is, when the conversation key was first created during this
same request. -/
def chat (sess : Option (List Message)) (rawMessage : String)
    (classifierBackend : String → Except String ModelResponse)
    (completionBackend : List Message → Except String ModelResponse) :
    ChatResponse × Option (List Message) × List Event :=
  let user_message := pyStrip rawMessage
  if user_message = "" then
    (.emptyMessage, sess, [])
  else
    let ev1 := Event.classifierCall (classifierPrompt user_message "input")
    match check_content user_message "input" classifierBackend with
    | (false, classification) => (.inputFiltered classification, sess, [ev1])
    | (true, _) =>
      let modified := sess.isNone
      let conversation := (sess.getD []) ++ [⟨"user", user_message⟩]
      let onError : Option (List Message) :=
        if modified then some conversation else sess
      let ev2 := Event.completionCall conversation
      match chat_completion conversation completionBackend with
      | .error e => (.completionError e, onError, [ev1, ev2])
      | .ok (contentOpt, _) =>
        let assistant_message := contentOpt.getD ""
        if assistant_message = "" then
          (.emptyCompletion, onError, [ev1, ev2])
        else
          let ev3 :=
            Event.classifierCall (classifierPrompt assistant_message "output")
          match check_content assistant_message "output" classifierBackend with
          | (false, classification) =>
              (.outputFiltered classification, onError, [ev1, ev2, ev3])
          | (true, _) =>
              let final := conversation ++ [⟨"assistant", assistant_message⟩]
              (.success assistant_message, some (lastN 20 final),
               [ev1, ev2, ev3])

/-- Embeds the /api/clear handler: the status with JSON body, and the
persisted conversation. The item assignment marks the session modified, so
the empty list is always persisted. -/
def clear_conversation (_sess : Option (List Message)) :
    (Nat × List (String × String)) × Option (List Message) :=
  ((200, [("status", "cleared")]), some [])

/-- The store update of one fully successful turn: append the user message and
the assistant message, keep the last 20. -/
def commitTurn (conv : List Message) (u a : String) : List Message :=
  lastN 20 (conv ++ [⟨"user", u⟩, ⟨"assistant", a⟩])

/-- The stored conversation after a list of fully successful turns starting
from an empty conversation; each pair is the user text and assistant text. -/
def runSession (turns : List (String × String)) : List Message :=
  turns.foldl (fun conv p => commitTurn conv p.1 p.2) []

/-- All messages of a list of turns, oldest first, with no truncation. -/
def fullHistory : List (String × String) → List Message
  | [] => []
  | (u, a) :: rest => ⟨"user", u⟩ :: ⟨"assistant", a⟩ :: fullHistory rest

/-- A classifier response whose text triggers no unsafe keyword. -/
def safeResponse : ModelResponse := ⟨[⟨⟨some "Safe", "assistant"⟩⟩]⟩

/-- A backend response carrying the given assistant text. -/
def mkModelResponse (text : String) : ModelResponse :=
  ⟨[⟨⟨some text, "assistant"⟩⟩]⟩

/-- A classifier backend that always answers with a safe verdict text. -/
def safeClassifier : String → Except String ModelResponse :=
  fun _ => .ok safeResponse

/-- A classifier backend that always raises the given error. -/
def errClassifier (e : String) : String → Except String ModelResponse :=
  fun _ => .error e

/-- A completion backend that always answers with the given text. -/
def constCompletion (text : String) : List Message → Except String ModelResponse :=
  fun _ => .ok (mkModelResponse text)

/-- A completion backend that always raises the given error. -/
def errCompletion (e : String) : List Message → Except String ModelResponse :=
  fun _ => .error e

theorem length_lastN {α : Type} (n : Nat) (l : List α) :
    (lastN n l).length = min l.length n := by
  simp [lastN]; omega

theorem lastN_le {α : Type} (n : Nat) (l : List α) :
    (lastN n l).length ≤ n := by
  rw [length_lastN]; omega

theorem lastN_append_lastN {α : Type} (n : Nat) (h l : List α) :
    lastN n (lastN n h ++ l) = lastN n (h ++ l) := by
  unfold lastN
  rw [List.drop_append_eq_append_drop, List.drop_append_eq_append_drop,
    List.drop_drop]
  have e1 : (h.length - n) + ((h.drop (h.length - n) ++ l).length - n)
      = (h ++ l).length - n := by
    simp [List.length_append, List.length_drop]; omega
  have e2 : ((h.drop (h.length - n) ++ l).length - n)
        - (h.drop (h.length - n)).length
      = ((h ++ l).length - n) - h.length := by
    simp [List.length_append, List.length_drop]; omega
  rw [e1, e2]

theorem fullHistory_length (turns : List (String × String)) :
    (fullHistory turns).length = 2 * turns.length := by
  induction turns with
  | nil => simp [fullHistory]
  | cons t rest ih => simp [fullHistory, ih]; omega

theorem foldl_commitTurn (turns : List (String × String)) (h : List Message) :
    List.foldl (fun conv p => commitTurn conv p.1 p.2) (lastN 20 h) turns
      = lastN 20 (h ++ fullHistory turns) := by
  induction turns generalizing h with
  | nil => simp [fullHistory]
  | cons t rest ih =>
    rcases t with ⟨u, a⟩
    have step : commitTurn (lastN 20 h) u a
        = lastN 20 (h ++ [⟨"user", u⟩, ⟨"assistant", a⟩]) := by
      unfold commitTurn
      exact lastN_append_lastN 20 h [⟨"user", u⟩, ⟨"assistant", a⟩]
    simp only [List.foldl_cons, step, ih, fullHistory]
    rw [List.append_assoc]
    rfl

theorem runSession_eq (turns : List (String × String)) :
    runSession turns = lastN 20 (fullHistory turns) := by
  have h := foldl_commitTurn turns []
  simpa [runSession, lastN] using h

theorem check_content_safeClassifier (content ctype : String) :
    check_content content ctype safeClassifier = (true, "Safe") := rfl

theorem check_content_errClassifier (content ctype e : String) :
    check_content content ctype (errClassifier e)
      = (true, "Safety check failed") := rfl

/-- Claim C1: the claim states that every rejected turn leaves the stored
conversation unchanged, the final append-and-truncate of a successful turn
being the only persisted transition. The code violates this: on a session
whose conversation key is created during the turn itself, the key assignment
marks the session modified, so the user message appended in place before the
completion call is persisted by the response cookie even when the turn is
then rejected by a completion backend error. This theorem evaluates the
handler at that failing input: the turn ends in a 500 completion error, yet
the persisted conversation has gained the user message. -/
theorem C1_rejected_turn_persists_user_message :
    (chat none "hello" safeClassifier (errCompletion "connection error")).1
      = ChatResponse.completionError "connection error"
    ∧ (chat none "hello" safeClassifier (errCompletion "connection error")).2.1
      = some [⟨"user", "hello"⟩]
    ∧ readConversation none = [] := by
  exact ⟨rfl, rfl, rfl⟩

/-- Claim C2: on any network or protocol error of the classifier backend,
the safety check returns the fail-open verdict, safe with classification
exactly "Safety check failed", for every content and direction; and at the
pipeline level an unreachable classifier backend is never surfaced as an
error and never blocks the turn: the handler behaves exactly as it would
with a backend answering a safe verdict. -/
theorem C2_classifier_fail_open :
    (∀ content ctype e, check_content content ctype (errClassifier e)
        = (true, "Safety check failed"))
    ∧ (∀ sess raw comp e, chat sess raw (errClassifier e) comp
        = chat sess raw safeClassifier comp) := by
  constructor
  · intro content ctype e; rfl
  · intro sess raw comp e
    by_cases hne : pyStrip raw = ""
    · simp [chat, hne]
    · have h1 : ∀ c t, check_content c t (errClassifier e)
          = (true, "Safety check failed") := fun _ _ => rfl
      have h2 : ∀ c t, check_content c t safeClassifier
          = (true, "Safe") := fun _ _ => rfl
      simp only [chat, hne, if_neg, h1, h2]

/-- Claim C3 as stated is false at a returned text with surrounding
whitespace: for the classifier answer " unsafe " the code returns the
stripped text "unsafe" as the classification, not the raw returned text. -/
theorem C3_counterexample :
    check_content "x" "input" (fun _ => .ok (mkModelResponse " unsafe "))
      = (false, "unsafe")
    ∧ check_content "x" "input" (fun _ => .ok (mkModelResponse " unsafe "))
      ≠ (false, " unsafe ") := by
  exact ⟨rfl, by decide⟩

/-- Claim C3 amended: the verdict is derived from the whitespace-stripped
returned text; if its lower-cased form contains one of the substrings
unsafe, violation, harmful, inappropriate, then the verdict is unsafe with
classification equal to the stripped returned text, otherwise the verdict is
safe with classification equal to the literal "Safe". -/
theorem C3_amended_keyword_verdict (content ctype text : String) :
    check_content content ctype (fun _ => .ok (mkModelResponse text))
      = if unsafeKeywords.any
            (fun keyword => pyIn keyword (pyLower (pyStrip text))) then
          (false, pyStrip text)
        else
          (true, "Safe") := rfl

/-- Claim C5: a message that is empty after trimming whitespace is rejected
with status 400 and body error Empty message, no classifier or completion
call is made, and the persisted conversation is exactly the previous one. -/
theorem C5_empty_message (sess : Option (List Message)) (raw : String)
    (cb : String → Except String ModelResponse)
    (comp : List Message → Except String ModelResponse)
    (h : pyStrip raw = "") :
    chat sess raw cb comp = (ChatResponse.emptyMessage, sess, [])
    ∧ ChatResponse.emptyMessage.status = 400
    ∧ ChatResponse.emptyMessage.body = [("error", "Empty message")] := by
  refine ⟨?_, rfl, rfl⟩
  simp [chat, h]

/-- Witness for claim C5 at the concrete whitespace input. -/
theorem C5_witness :
    chat (some [⟨"user", "x"⟩]) "  " safeClassifier (constCompletion "yo")
      = (ChatResponse.emptyMessage, some [⟨"user", "x"⟩], []) :=
  (C5_empty_message (some [⟨"user", "x"⟩]) "  " safeClassifier
    (constCompletion "yo") (by decide)).1

/-- Claim C7: a non-empty user message judged unsafe by the input-direction
check ends the turn with a 400 input_filtered error carrying the
classification text, after exactly one external call, and the persisted
conversation is exactly the previous one. -/
theorem C7_input_filtered (sess : Option (List Message)) (raw : String)
    (cb : String → Except String ModelResponse)
    (comp : List Message → Except String ModelResponse) (cls : String)
    (hne : pyStrip raw ≠ "")
    (hcc : check_content (pyStrip raw) "input" cb = (false, cls)) :
    chat sess raw cb comp
      = (ChatResponse.inputFiltered cls, sess,
         [Event.classifierCall (classifierPrompt (pyStrip raw) "input")])
    ∧ (ChatResponse.inputFiltered cls).status = 400
    ∧ (ChatResponse.inputFiltered cls).body
      = [("error", "Content filtered by safety model"),
         ("classification", cls), ("type", "input_filtered")] := by
  refine ⟨?_, rfl, rfl⟩
  simp [chat, hne, hcc]

/-- Witness for claim C7: a classifier answering with an unsafe text. -/
theorem C7_witness :
    chat (some [⟨"user", "x"⟩]) "bad"
        (fun _ => .ok (mkModelResponse "This content is unsafe"))
        (constCompletion "yo")
      = (ChatResponse.inputFiltered "This content is unsafe",
         some [⟨"user", "x"⟩],
         [Event.classifierCall (classifierPrompt (pyStrip "bad") "input")]) :=
  (C7_input_filtered (some [⟨"user", "x"⟩]) "bad"
    (fun _ => .ok (mkModelResponse "This content is unsafe"))
    (constCompletion "yo") "This content is unsafe"
    (by decide) (by decide)).1

/-- Claim C8: clearing a session answers 200 with body status cleared, and
reading the conversation afterwards returns the empty sequence. -/
theorem C8_clear_then_read (sess : Option (List Message)) :
    clear_conversation sess = ((200, [("status", "cleared")]), some [])
    ∧ readConversation (clear_conversation sess).2 = [] :=
  ⟨rfl, rfl⟩

/-- Claim C10: the fail-open branch covers every exception inside the safety
check, not only raised network errors: a response with an empty choices
array or with a null message content also yields the verdict safe with
classification "Safety check failed". -/
theorem C10_fail_open_covers_parsing (content ctype e : String)
    (r : ModelResponse)
    (h : r.choices = []
      ∨ ∃ choice rest, r.choices = choice :: rest
          ∧ choice.message.content = none) :
    check_content content ctype (fun _ => .error e)
      = (true, "Safety check failed")
    ∧ check_content content ctype (fun _ => .ok r)
      = (true, "Safety check failed") := by
  refine ⟨rfl, ?_⟩
  rcases h with h | ⟨choice, rest, hc, hn⟩
  · simp [check_content, h]
  · simp [check_content, hc, hn]

/-- Witness for claim C10 at a response with an empty choices array. -/
theorem C10_witness :
    check_content "hi" "input" (fun _ => .ok (⟨[]⟩ : ModelResponse))
      = (true, "Safety check failed") :=
  (C10_fail_open_covers_parsing "hi" "input" "e" ⟨[]⟩ (Or.inl rfl)).2

/-- Claim C4: a fully successful turn commits exactly the append of the user
and assistant messages followed by truncation to the last 20; starting from
an empty conversation, after N successful turns the stored length equals
min(2N, 20), the stored conversation is the most recent suffix of the full
history, and after any completed turn the length is at most 20. -/
theorem C4_conversation_length_invariant :
    (∀ conv u a, pyStrip u = u → u ≠ "" → a ≠ "" →
      chat (some conv) u safeClassifier (constCompletion a)
        = (ChatResponse.success a, some (commitTurn conv u a),
           [Event.classifierCall (classifierPrompt u "input"),
            Event.completionCall (conv ++ [⟨"user", u⟩]),
            Event.classifierCall (classifierPrompt a "output")]))
    ∧ (∀ turns, (runSession turns).length = min (2 * turns.length) 20)
    ∧ (∀ turns, runSession turns = lastN 20 (fullHistory turns))
    ∧ (∀ conv u a, (commitTurn conv u a).length ≤ 20) := by
  refine ⟨?_, ?_, runSession_eq, ?_⟩
  · intro conv u a hu hne ha
    have h2 : ∀ c t, check_content c t safeClassifier = (true, "Safe") :=
      fun _ _ => rfl
    have hcmp : ∀ msgs, chat_completion msgs (constCompletion a)
        = .ok (some a, "assistant") := fun _ => rfl
    simp [chat, hu, hne, h2, hcmp, ha, commitTurn, List.append_assoc]
  · intro turns
    rw [runSession_eq, length_lastN, fullHistory_length]
  · intro conv u a
    exact lastN_le 20 _

/-- Witness for claim C4: one successful turn from the empty conversation. -/
theorem C4_witness :
    chat (some []) "hi" safeClassifier (constCompletion "yo")
      = (ChatResponse.success "yo", some (commitTurn [] "hi" "yo"),
         [Event.classifierCall (classifierPrompt "hi" "input"),
          Event.completionCall ([] ++ [⟨"user", "hi"⟩]),
          Event.classifierCall (classifierPrompt "yo" "output")]) :=
  C4_conversation_length_invariant.1 [] "hi" "yo" (by decide) (by decide)
    (by decide)

/-- Claim C6: the completion client maps any raised network or protocol error
to an error result carrying the error text and never throws past its
boundary; the pipeline surfaces a completion error as a 500 response whose
body carries the error text, and an empty completion as the 500 empty
response error; and no external call is retried: each turn makes at most one
completion call and at most two classifier calls. -/
theorem C6_completion_error_handling :
    (∀ messages e, chat_completion messages (errCompletion e) = .error e)
    ∧ (∀ e, (ChatResponse.completionError e).status = 500
        ∧ (ChatResponse.completionError e).body = [("error", e)])
    ∧ (ChatResponse.emptyCompletion.status = 500
        ∧ ChatResponse.emptyCompletion.body
          = [("error", "Empty response from model")])
    ∧ (∀ sess raw cb e, pyStrip raw ≠ "" →
        (check_content (pyStrip raw) "input" cb).1 = true →
        (chat sess raw cb (errCompletion e)).1
          = ChatResponse.completionError e)
    ∧ (∀ sess raw cb co role, pyStrip raw ≠ "" →
        (check_content (pyStrip raw) "input" cb).1 = true →
        co.getD "" = "" →
        (chat sess raw cb
            (fun _ => .ok (⟨[⟨⟨co, role⟩⟩]⟩ : ModelResponse))).1
          = ChatResponse.emptyCompletion)
    ∧ (∀ sess raw cb comp,
        (((chat sess raw cb comp).2.2).filter isCompletionCall).length ≤ 1
        ∧ (((chat sess raw cb comp).2.2).filter isClassifierCall).length
            ≤ 2) := by
  refine ⟨fun _ _ => rfl, fun _ => ⟨rfl, rfl⟩, ⟨rfl, rfl⟩, ?_, ?_, ?_⟩
  · intro sess raw cb e hne hsafe
    rcases hcc : check_content (pyStrip raw) "input" cb with ⟨b, cls⟩
    rw [hcc] at hsafe
    simp only at hsafe
    subst hsafe
    simp [chat, hne, hcc, chat_completion, errCompletion]
  · intro sess raw cb co role hne hsafe hco
    rcases hcc : check_content (pyStrip raw) "input" cb with ⟨b, cls⟩
    rw [hcc] at hsafe
    simp only at hsafe
    subst hsafe
    simp [chat, hne, hcc, chat_completion, hco]
  · intro sess raw cb comp
    by_cases hne : pyStrip raw = ""
    · simp [chat, hne]
    · rcases hcc : check_content (pyStrip raw) "input" cb with ⟨b1, c1⟩
      cases b1
      · simp [chat, hne, hcc, isCompletionCall, isClassifierCall]
      · rcases hcmp : chat_completion
            ((sess.getD []) ++ [⟨"user", pyStrip raw⟩]) comp with e | p
        · simp [chat, hne, hcc, hcmp, isCompletionCall, isClassifierCall]
        · rcases p with ⟨co, ro⟩
          by_cases ha : co.getD "" = ""
          · simp [chat, hne, hcc, hcmp, ha, isCompletionCall,
              isClassifierCall]
          · rcases hcc2 : check_content (co.getD "") "output" cb with ⟨b2, c2⟩
            cases b2 <;>
              simp [chat, hne, hcc, hcmp, ha, hcc2, isCompletionCall,
                isClassifierCall]

/-- Witness for claim C6: a completion backend error on a safe non-empty
message is surfaced as the 500 completion error response. -/
theorem C6_witness :
    (chat (some []) "hello" safeClassifier (errCompletion "boom")).1
      = ChatResponse.completionError "boom" :=
  C6_completion_error_handling.2.2.2.1 (some []) "hello" safeClassifier
    "boom" (by decide) (by decide)

/-- Claim C9: the whitespace-trimmed message text is the one used everywhere:
the first external call is the input-direction classifier check on the
trimmed text, any completion call sends the prior history plus a user
message holding exactly the trimmed text, and a successful turn persists the
history extended by that same trimmed user message and the assistant
reply. -/
theorem C9_trimmed_message_used_consistently (sess : Option (List Message))
    (raw : String) (cb : String → Except String ModelResponse)
    (comp : List Message → Except String ModelResponse)
    (hne : pyStrip raw ≠ "") :
    ((chat sess raw cb comp).2.2).head?
      = some (Event.classifierCall (classifierPrompt (pyStrip raw) "input"))
    ∧ (∀ msgs, Event.completionCall msgs ∈ (chat sess raw cb comp).2.2 →
        msgs = readConversation sess ++ [⟨"user", pyStrip raw⟩])
    ∧ (∀ a, (chat sess raw cb comp).1 = ChatResponse.success a →
        (chat sess raw cb comp).2.1
          = some (lastN 20 (readConversation sess
              ++ [⟨"user", pyStrip raw⟩, ⟨"assistant", a⟩]))) := by
  rcases hcc : check_content (pyStrip raw) "input" cb with ⟨b1, c1⟩
  cases b1
  · simp [chat, hne, hcc, readConversation]
  · rcases hcmp : chat_completion
        ((sess.getD []) ++ [⟨"user", pyStrip raw⟩]) comp with e | p
    · simp [chat, hne, hcc, hcmp, readConversation]
    · rcases p with ⟨co, ro⟩
      by_cases ha : co.getD "" = ""
      · simp [chat, hne, hcc, hcmp, ha, readConversation]
      · rcases hcc2 : check_content (co.getD "") "output" cb with ⟨b2, c2⟩
        cases b2
        · simp [chat, hne, hcc, hcmp, ha, hcc2, readConversation]
        · simp [chat, hne, hcc, hcmp, ha, hcc2, readConversation,
            List.append_assoc]

/-- Witness for claim C9 at a concrete padded input. -/
theorem C9_witness :
    ((chat (some []) " hi " safeClassifier (constCompletion "yo")).2.2).head?
      = some (Event.classifierCall
          (classifierPrompt (pyStrip " hi ") "input")) :=
  (C9_trimmed_message_used_consistently (some []) " hi " safeClassifier
    (constCompletion "yo") (by decide)).1
